import Mathlib

/-!
Verification of the CMSIS-DSP IIR coefficient-table contract.

The repository ships two generated headers (`src/filterdata.h` and
`src/iir_filter_coeffs.h`), each holding a flat table of biquad-cascade
coefficients for a direct-form-II-transposed (DF2T) filter, plus one
code-generation template (`src/templates/cmsis_header_template.h`).
Coefficient literals are embedded here as exact rationals (`ℚ`), i.e. the
exact decimal values of the source literals.  The decode/process contract
of the specification (§4.1, §4.2) has no executable code under `src/`
(the processing calls are commented-out examples into the external
CMSIS-DSP library), so those operations are modelled from the spec.
-/

/-- One biquad (second-order IIR) section: feed-forward coefficients
`b0, b1, b2` and feed-back coefficients `a1, a2` (normalized `a0 = 1`). -/
structure Section where
  b0 : ℚ
  b1 : ℚ
  b2 : ℚ
  a1 : ℚ
  a2 : ℚ
deriving DecidableEq, Repr

/-- A cascade of biquad sections, applied in order. -/
structure FilterCascade where
  numSections : Nat
  sections : List Section
deriving DecidableEq, Repr

/-- Stability invariant (spec §3): the feedback pair `(a1, a2)` must place
both poles strictly inside the unit circle: `|a2| < 1` and `|a1| < 1 + a2`. -/
def stable (s : Section) : Prop :=
  |s.a2| < 1 ∧ |s.a1| < 1 + s.a2

instance (s : Section) : Decidable (stable s) := by
  unfold stable
  infer_instance

namespace filterdata

/-- `#define IIR_NUM_SECTIONS 2` from `src/filterdata.h`. -/
def IIR_NUM_SECTIONS : Nat := 2

/-- `#define IIR_STATE_SIZE 4` from `src/filterdata.h`. -/
def IIR_STATE_SIZE : Nat := 4

/-- The coefficient table `iirCoeffs_DF2T` of `src/filterdata.h`, its ten
float literals taken as exact decimals, each written as an integer
numerator over `10^10` (e.g. `mkRat 585 10000000000 = 0.0000000585`,
`mkRat (-19426382780) 10000000000 = -1.9426382780`). -/
def iirCoeffs_DF2T : List ℚ :=
  [mkRat 585 10000000000, mkRat 1169 10000000000, mkRat 585 10000000000,
   mkRat (-19426382780) 10000000000, mkRat 9435972571 10000000000,
   1, 2, 1,
   mkRat (-19752696753) 10000000000, mkRat 9762448072 10000000000]

end filterdata

namespace iir_filter_coeffs

/-- `#define IIR_NUM_SECTIONS 2` from `src/iir_filter_coeffs.h`. -/
def IIR_NUM_SECTIONS : Nat := 2

/-- `#define IIR_STATE_SIZE 4` from `src/iir_filter_coeffs.h`. -/
def IIR_STATE_SIZE : Nat := 4

/-- The coefficient table `iirCoeffs_DF2T` of `src/iir_filter_coeffs.h`,
its ten float literals taken as exact decimals, each written as an integer
numerator over `10^10` (e.g. `mkRat 48243431 10000000000 = 0.0048243431`). -/
def iirCoeffs_DF2T : List ℚ :=
  [mkRat 48243431 10000000000, mkRat 96486863 10000000000, mkRat 48243431 10000000000,
   mkRat (-10485996008) 10000000000, mkRat 2961403430 10000000000,
   1, 2, 1,
   mkRat (-13209134340) 10000000000, mkRat 6327387691 10000000000]

end iir_filter_coeffs

/-- Error taxonomy of spec §7. -/
inductive DecodeError where
  | MalformedLayout : DecodeError
  | UnstableSection : Nat → DecodeError
deriving DecidableEq, Repr

/-- Group a flat value sequence into sections of five consecutive values,
in the fixed order `[b0, b1, b2, a1, a2]` (spec §3, SerializedLayout). -/
def chunkSections : List ℚ → List Section
  | b0 :: b1 :: b2 :: a1 :: a2 :: rest =>
      ⟨b0, b1, b2, a1, a2⟩ :: chunkSections rest
  | _ => []

/-- Index of the first section violating the stability invariant, if any,
offset by the accumulator `k`. -/
def firstUnstable : List Section → Nat → Option Nat
  | [], _ => none
  | s :: rest, k => if stable s then firstUnstable rest (k + 1) else some k

/-- Modelled from the spec: `decode(flatValues, numSections)` of §4.1; the
repository ships no executable decoder.  Fails with `MalformedLayout` when
`len(flatValues) ≠ numSections * 5`, then validates each section's
stability invariant, failing with `UnstableSection(index)` at the first
violation; otherwise returns the parsed cascade unaltered. -/
def decode (flatValues : List ℚ) (numSections : Nat) :
    Except DecodeError FilterCascade :=
  if flatValues.length ≠ numSections * 5 then
    .error .MalformedLayout
  else
    match firstUnstable (chunkSections flatValues) 0 with
    | some i => .error (.UnstableSection i)
    | none => .ok ⟨numSections, chunkSections flatValues⟩

/-- Modelled from the spec: the per-sample, per-section
direct-form-II-transposed update of §4.2 (the repository only ships
commented-out calls into the external CMSIS-DSP backend).  The state pair
`st = (state[2*i], state[2*i+1])` of section `i` is updated as
`y = b0*x + state[2*i]`, `state[2*i] = b1*x - a1*y + state[2*i+1]`,
`state[2*i+1] = b2*x - a2*y`; `y` feeds the next section. -/
def sectionStep (s : Section) (st : ℚ × ℚ) (x : ℚ) : ℚ × (ℚ × ℚ) :=
  let y := s.b0 * x + st.1
  (y, (s.b1 * x - s.a1 * y + st.2, s.b2 * x - s.a2 * y))

/-- Modelled from the spec: run one input sample `x` sequentially through
the sections (§4.2), threading each section's state pair; the value of `x`
after the last section is the output sample. -/
def runSections : List Section → List (ℚ × ℚ) → ℚ → ℚ × List (ℚ × ℚ)
  | [], st, x => (x, st)
  | _ :: _, [], x => (x, [])
  | s :: ss, p :: ps, x =>
      let r := sectionStep s p x
      let rest := runSections ss ps r.1
      (rest.1, r.2 :: rest.2)

/-- Modelled from the spec: `process(cascade, state, input)` of §4.2,
mapping each input sample through the cascade in order while mutating the
state; returns the output block together with the final state contents. -/
def process (c : FilterCascade) (st : List (ℚ × ℚ)) :
    List ℚ → List ℚ × List (ℚ × ℚ)
  | [] => ([], st)
  | x :: xs =>
      let r := runSections c.sections st x
      let rest := process c r.2 xs
      (r.1 :: rest.1, rest.2)

/-- The freshly zero-initialized state buffer for `n` sections: all
`2 * n` state values zero, as section pairs. -/
def zeroState (n : Nat) : List (ℚ × ℚ) :=
  List.replicate n (0, 0)

/-- The first concrete 2-section cascade exactly as the spec's §8 lists it,
written with the spec's own decimal literals. -/
def specListedCascadeFirst : List ℚ :=
  [0.0000000585, 0.0000001169, 0.0000000585, -1.9426382780, 0.9435972571,
   1, 2, 1, -1.9752696753, 0.9762448072]

/-- The second concrete 2-section cascade exactly as the spec's §8 lists it,
written with the spec's own decimal literals. -/
def specListedCascadeSecond : List ℚ :=
  [0.0048243431, 0.0096486863, 0.0048243431, -1.0485996008, 0.2961403430,
   1, 2, 1, -1.3209134340, 0.6327387691]

/-- Modelled from the spec: the state-size metadata constant a generated
header carries, `= 2 * numSections` (spec §6).  The generator that fills the
template is not part of the repository: `src/templates/cmsis_header_template.h`
leaves `IIR_FILTER_STATE_SIZE` as the free placeholder `{{ state_size }}`. -/
def templateStateSize (numSections : Nat) : Nat :=
  2 * numSections

/-- The stability invariant with the absolute values spelled out as
two-sided strict bounds. -/
theorem stable_iff (s : Section) :
    stable s ↔ (-1 < s.a2 ∧ s.a2 < 1) ∧ (-(1 + s.a2) < s.a1 ∧ s.a1 < 1 + s.a2) := by
  unfold stable
  rw [abs_lt, abs_lt]

/-- The table of `src/filterdata.h` parses into its two sections, five
values each, in the order `[b0, b1, b2, a1, a2]`, section 0 first. -/
theorem filterdata_chunk :
    chunkSections filterdata.iirCoeffs_DF2T =
      [⟨mkRat 585 10000000000, mkRat 1169 10000000000, mkRat 585 10000000000,
        mkRat (-19426382780) 10000000000, mkRat 9435972571 10000000000⟩,
       ⟨1, 2, 1, mkRat (-19752696753) 10000000000, mkRat 9762448072 10000000000⟩] := rfl

/-- The table of `src/iir_filter_coeffs.h` parses into its two sections,
five values each, in the order `[b0, b1, b2, a1, a2]`, section 0 first. -/
theorem iir_chunk :
    chunkSections iir_filter_coeffs.iirCoeffs_DF2T =
      [⟨mkRat 48243431 10000000000, mkRat 96486863 10000000000, mkRat 48243431 10000000000,
        mkRat (-10485996008) 10000000000, mkRat 2961403430 10000000000⟩,
       ⟨1, 2, 1, mkRat (-13209134340) 10000000000, mkRat 6327387691 10000000000⟩] := rfl

/-- Both sections of the `src/filterdata.h` table satisfy the stability
invariant. -/
theorem filterdata_sections_stable :
    ∀ s ∈ chunkSections filterdata.iirCoeffs_DF2T, stable s := by
  rw [filterdata_chunk]
  intro s hs
  simp only [List.mem_cons, List.not_mem_nil, or_false] at hs
  rcases hs with rfl | rfl <;>
    · rw [stable_iff]
      norm_num [Rat.mkRat_eq_div]

/-- Both sections of the `src/iir_filter_coeffs.h` table satisfy the
stability invariant. -/
theorem iir_sections_stable :
    ∀ s ∈ chunkSections iir_filter_coeffs.iirCoeffs_DF2T, stable s := by
  rw [iir_chunk]
  intro s hs
  simp only [List.mem_cons, List.not_mem_nil, or_false] at hs
  rcases hs with rfl | rfl <;>
    · rw [stable_iff]
      norm_num [Rat.mkRat_eq_div]

/-- `firstUnstable` returns `none` exactly when every section is stable. -/
theorem firstUnstable_eq_none_iff (l : List Section) (k : Nat) :
    firstUnstable l k = none ↔ ∀ s ∈ l, stable s := by
  induction l generalizing k with
  | nil => simp [firstUnstable]
  | cons s rest ih =>
      by_cases h : stable s
      · simp [firstUnstable, h, ih]
      · simp [firstUnstable, h]

/-- `decode` succeeds verbatim on a well-sized, all-stable flat table. -/
theorem decode_eq_ok (fv : List ℚ) (n : Nat) (hlen : fv.length = n * 5)
    (hst : ∀ s ∈ chunkSections fv, stable s) :
    decode fv n = .ok ⟨n, chunkSections fv⟩ := by
  unfold decode
  rw [if_neg (by simp [hlen]), (firstUnstable_eq_none_iff _ 0).mpr hst]

/-- Decoding the `src/filterdata.h` table with its declared section count
succeeds. -/
theorem decode_filterdata :
    decode filterdata.iirCoeffs_DF2T filterdata.IIR_NUM_SECTIONS =
      .ok ⟨2, chunkSections filterdata.iirCoeffs_DF2T⟩ :=
  decode_eq_ok _ _ rfl filterdata_sections_stable

/-- Decoding the `src/iir_filter_coeffs.h` table with its declared section
count succeeds. -/
theorem decode_iir :
    decode iir_filter_coeffs.iirCoeffs_DF2T iir_filter_coeffs.IIR_NUM_SECTIONS =
      .ok ⟨2, chunkSections iir_filter_coeffs.iirCoeffs_DF2T⟩ :=
  decode_eq_ok _ _ rfl iir_sections_stable

/-- A zero sample through all-zero section states leaves every state pair
zero and outputs zero. -/
theorem runSections_zero (ss : List Section) :
    runSections ss (List.replicate ss.length (0, 0)) 0 =
      (0, List.replicate ss.length (0, 0)) := by
  induction ss with
  | nil => rfl
  | cons s rest ih =>
      simp [runSections, sectionStep, ih, List.replicate_succ, -Prod.mk_zero_zero]

/-- C1: every section of both shipped coefficient tables satisfies the
stability invariant `|a2| < 1` and `|a1| < 1 + a2`, taking the literals at
their exact rational values, so `decode` applied to either table with its
declared section count raises no `UnstableSection` error. -/
theorem shipped_tables_sections_stable :
    (∀ s ∈ chunkSections filterdata.iirCoeffs_DF2T, stable s) ∧
    (∀ s ∈ chunkSections iir_filter_coeffs.iirCoeffs_DF2T, stable s) ∧
    (∀ j, decode filterdata.iirCoeffs_DF2T filterdata.IIR_NUM_SECTIONS ≠
      Except.error (DecodeError.UnstableSection j)) ∧
    (∀ j, decode iir_filter_coeffs.iirCoeffs_DF2T iir_filter_coeffs.IIR_NUM_SECTIONS ≠
      Except.error (DecodeError.UnstableSection j)) := by
  refine ⟨filterdata_sections_stable, iir_sections_stable, ?_, ?_⟩
  · intro j h
    rw [decode_filterdata] at h
    exact Except.noConfusion h
  · intro j h
    rw [decode_iir] at h
    exact Except.noConfusion h

/-- C2: each shipped table is a flat sequence of `numSections * 5` values,
five per section in the order `[b0, b1, b2, a1, a2]` with section 0 first,
and the two tables are value for value the two concrete cascades the spec
lists (the first in `src/filterdata.h`, the second in
`src/iir_filter_coeffs.h`). -/
theorem shipped_tables_layout :
    filterdata.iirCoeffs_DF2T = specListedCascadeFirst ∧
    iir_filter_coeffs.iirCoeffs_DF2T = specListedCascadeSecond ∧
    filterdata.iirCoeffs_DF2T.length = filterdata.IIR_NUM_SECTIONS * 5 ∧
    iir_filter_coeffs.iirCoeffs_DF2T.length = iir_filter_coeffs.IIR_NUM_SECTIONS * 5 ∧
    chunkSections filterdata.iirCoeffs_DF2T =
      [⟨mkRat 585 10000000000, mkRat 1169 10000000000, mkRat 585 10000000000,
        mkRat (-19426382780) 10000000000, mkRat 9435972571 10000000000⟩,
       ⟨1, 2, 1, mkRat (-19752696753) 10000000000, mkRat 9762448072 10000000000⟩] ∧
    chunkSections iir_filter_coeffs.iirCoeffs_DF2T =
      [⟨mkRat 48243431 10000000000, mkRat 96486863 10000000000, mkRat 48243431 10000000000,
        mkRat (-10485996008) 10000000000, mkRat 2961403430 10000000000⟩,
       ⟨1, 2, 1, mkRat (-13209134340) 10000000000, mkRat 6327387691 10000000000⟩] := by
  refine ⟨?_, ?_, rfl, rfl, filterdata_chunk, iir_chunk⟩ <;>
    norm_num [filterdata.iirCoeffs_DF2T, iir_filter_coeffs.iirCoeffs_DF2T,
      specListedCascadeFirst, specListedCascadeSecond, Rat.mkRat_eq_div]

/-- C3: `process` computes each output sample by running the input sample
sequentially through the sections with the direct-form-II-transposed
update `y = b0*x + state[2*i]`; `state[2*i] = b1*x - a1*y + state[2*i+1]`;
`state[2*i+1] = b2*x - a2*y`; `x = y`, the value after the last section
being that position's output sample. -/
theorem process_df2t_update (c : FilterCascade) (st : List (ℚ × ℚ)) (x : ℚ)
    (xs : List ℚ) :
    process c st (x :: xs) =
      ((runSections c.sections st x).1 ::
        (process c (runSections c.sections st x).2 xs).1,
       (process c (runSections c.sections st x).2 xs).2) ∧
    (∀ (z : ℚ) (st2 : List (ℚ × ℚ)), runSections [] st2 z = (z, st2)) ∧
    (∀ (s : Section) (ss : List Section) (p : ℚ × ℚ) (ps : List (ℚ × ℚ)) (z : ℚ),
      runSections (s :: ss) (p :: ps) z =
        ((runSections ss ps (s.b0 * z + p.1)).1,
         (s.b1 * z - s.a1 * (s.b0 * z + p.1) + p.2,
          s.b2 * z - s.a2 * (s.b0 * z + p.1)) ::
           (runSections ss ps (s.b0 * z + p.1)).2)) :=
  ⟨rfl, fun _ _ => rfl, fun _ _ _ _ _ => rfl⟩

/-- C4: for every `numSections ≥ 1`, `decode` fails with `MalformedLayout`
exactly when the flat value count is not `numSections * 5`; on failure no
cascade is produced (the model returns only the error value). -/
theorem decode_malformed_iff (fv : List ℚ) (n : Nat) (_hn : 1 ≤ n) :
    decode fv n = Except.error DecodeError.MalformedLayout ↔ fv.length ≠ n * 5 := by
  constructor
  · intro hdec
    by_contra hlen
    unfold decode at hdec
    rw [if_neg (not_ne_iff.mpr hlen)] at hdec
    cases hfu : firstUnstable (chunkSections fv) 0 with
    | none =>
        rw [hfu] at hdec
        exact Except.noConfusion hdec
    | some i =>
        rw [hfu] at hdec
        exact DecodeError.noConfusion (Except.error.inj hdec)
  · intro hlen
    unfold decode
    rw [if_pos hlen]

/-- C4 witness: at the concrete input `[0, 0, 0]` with one declared
section, `decode` fails with `MalformedLayout` since `3 ≠ 1 * 5`. -/
theorem decode_malformed_iff_witness :
    decode [0, 0, 0] 1 = Except.error DecodeError.MalformedLayout ↔
      ([0, 0, 0] : List ℚ).length ≠ 1 * 5 :=
  decode_malformed_iff [0, 0, 0] 1 (by decide)

/-- C5: when the flat values are well-sized and some section violates the
stability invariant, `decode` fails with `UnstableSection`; a section with
`a2 = 1.5` (written `mkRat 3 2`) always violates the invariant; and any
successful decode returns the parsed sections verbatim, never clamped or
otherwise altered. -/
theorem decode_unstable_reject (fv : List ℚ) (n : Nat) (hlen : fv.length = n * 5)
    (hub : ∃ s ∈ chunkSections fv, ¬ stable s) :
    (∃ j, decode fv n = Except.error (DecodeError.UnstableSection j)) ∧
    (∀ s : Section, s.a2 = mkRat 3 2 → ¬ stable s) ∧
    (∀ (gv : List ℚ) (m : Nat) (c : FilterCascade),
      decode gv m = Except.ok c → c.sections = chunkSections gv) := by
  refine ⟨?_, ?_, ?_⟩
  · cases hfu : firstUnstable (chunkSections fv) 0 with
    | none =>
        rw [firstUnstable_eq_none_iff] at hfu
        rcases hub with ⟨s, hmem, hns⟩
        exact absurd (hfu s hmem) hns
    | some j =>
        refine ⟨j, ?_⟩
        unfold decode
        rw [if_neg (by simp [hlen]), hfu]
  · intro s ha
    rw [stable_iff]
    rintro ⟨⟨-, h2⟩, -⟩
    rw [ha] at h2
    norm_num [Rat.mkRat_eq_div] at h2
  · intro gv m c hdec
    unfold decode at hdec
    by_cases hl : gv.length ≠ m * 5
    · rw [if_pos hl] at hdec
      exact Except.noConfusion hdec
    · rw [if_neg hl] at hdec
      cases hfu : firstUnstable (chunkSections gv) 0 with
      | some i =>
          rw [hfu] at hdec
          exact Except.noConfusion hdec
      | none =>
          rw [hfu] at hdec
          exact congrArg FilterCascade.sections (Except.ok.inj hdec).symm

/-- C5 witness: the concrete one-section input `[1, 2, 1, 0, 1.5]`
(with `a2 = 1.5 = mkRat 3 2`) is rejected with `UnstableSection`. -/
theorem decode_unstable_reject_witness :
    (∃ j, decode [1, 2, 1, 0, mkRat 3 2] 1 =
      Except.error (DecodeError.UnstableSection j)) ∧
    (∀ s : Section, s.a2 = mkRat 3 2 → ¬ stable s) ∧
    (∀ (gv : List ℚ) (m : Nat) (c : FilterCascade),
      decode gv m = Except.ok c → c.sections = chunkSections gv) :=
  decode_unstable_reject [1, 2, 1, 0, mkRat 3 2] 1 rfl
    ⟨⟨1, 2, 1, 0, mkRat 3 2⟩, List.mem_singleton_self _, by
      rw [stable_iff]
      rintro ⟨⟨-, h2⟩, -⟩
      norm_num [Rat.mkRat_eq_div] at h2⟩

/-- C6: splitting one input sequence into two consecutive blocks and
processing them sequentially against the threaded state buffer yields the
same concatenated output and the same final state as processing the whole
sequence in one block. -/
theorem process_block_split (c : FilterCascade) (st : List (ℚ × ℚ))
    (xs ys : List ℚ) :
    process c st (xs ++ ys) =
      ((process c st xs).1 ++ (process c (process c st xs).2 ys).1,
       (process c (process c st xs).2 ys).2) := by
  induction xs generalizing st with
  | nil => simp [process]
  | cons x xs ih => simp [process, ih]

/-- C7: for any cascade and any block length `N`, an all-zero input block
processed from the all-zero state yields an all-zero output block and
leaves the state all zero. -/
theorem process_zero_input (c : FilterCascade) (N : Nat) :
    process c (zeroState c.sections.length) (List.replicate N 0) =
      (List.replicate N 0, zeroState c.sections.length) := by
  unfold zeroState
  induction N with
  | zero => rfl
  | succ n ih =>
      simp [List.replicate_succ, process, runSections_zero, ih, -Prod.mk_zero_zero]

/-- C8: in both shipped headers the state-size constant equals twice the
section-count constant (`IIR_STATE_SIZE = 2 * IIR_NUM_SECTIONS`), and a
header generated from the template carries state-size metadata equal to
twice its section count. -/
theorem state_size_is_twice_sections :
    filterdata.IIR_STATE_SIZE = 2 * filterdata.IIR_NUM_SECTIONS ∧
    iir_filter_coeffs.IIR_STATE_SIZE = 2 * iir_filter_coeffs.IIR_NUM_SECTIONS ∧
    (∀ n, templateStateSize n = 2 * n) :=
  ⟨rfl, rfl, fun _ => rfl⟩

/-- C9: in every section of both shipped tables the first and third
feed-forward coefficients are exactly equal (`b0 = b2`), i.e. each
section's numerator is symmetric. -/
theorem shipped_sections_symmetric_numerator :
    ∀ s ∈ chunkSections filterdata.iirCoeffs_DF2T ++
        chunkSections iir_filter_coeffs.iirCoeffs_DF2T, s.b0 = s.b2 := by
  rw [filterdata_chunk, iir_chunk]
  intro s hs
  simp only [List.cons_append, List.nil_append, List.mem_cons,
    List.not_mem_nil, or_false] at hs
  rcases hs with rfl | rfl | rfl | rfl <;> rfl

/-- C10: both shipped arrays hold exactly 10 values, equal to their
declared `IIR_NUM_SECTIONS * 5`, so decoding either table with its
declared section count never reaches the `MalformedLayout` branch. -/
theorem shipped_tables_wellformed_length :
    filterdata.iirCoeffs_DF2T.length = 10 ∧
    filterdata.iirCoeffs_DF2T.length = filterdata.IIR_NUM_SECTIONS * 5 ∧
    iir_filter_coeffs.iirCoeffs_DF2T.length = 10 ∧
    iir_filter_coeffs.iirCoeffs_DF2T.length = iir_filter_coeffs.IIR_NUM_SECTIONS * 5 ∧
    decode filterdata.iirCoeffs_DF2T filterdata.IIR_NUM_SECTIONS ≠
      Except.error DecodeError.MalformedLayout ∧
    decode iir_filter_coeffs.iirCoeffs_DF2T iir_filter_coeffs.IIR_NUM_SECTIONS ≠
      Except.error DecodeError.MalformedLayout := by
  refine ⟨rfl, rfl, rfl, rfl, ?_, ?_⟩
  · intro h
    rw [decode_filterdata] at h
    exact Except.noConfusion h
  · intro h
    rw [decode_iir] at h
    exact Except.noConfusion h

/-- C9 witness: the second section of the `src/filterdata.h` table, a
concrete member of the shipped sections, has `b0 = b2` (both literal 1). -/
theorem shipped_sections_symmetric_numerator_witness :
    (Section.mk 1 2 1 (mkRat (-19752696753) 10000000000)
      (mkRat 9762448072 10000000000)).b0 =
    (Section.mk 1 2 1 (mkRat (-19752696753) 10000000000)
      (mkRat 9762448072 10000000000)).b2 :=
  shipped_sections_symmetric_numerator _ (by
    rw [filterdata_chunk, iir_chunk]
    simp)
